import Mathlib

/-!
Verification of the DemoManual RAG frontend against its specification.

The embedded code is:
- `src/RagWithScraper/frontend/app/api/chat/route.ts` — the Next.js chat API
  route handler (`POST`), which forwards a question to the backend, transforms
  the backend response (reference URL to title mapping, optional-chained
  evaluation scores with a default object), and returns either the transformed
  payload with status 200 or a fixed error payload with status 500.
- the chat page component (`handleSubmit`, `getConfidenceColor`, and the
  conditional rendering of the evaluation-scores and references sections).

JavaScript strings are modelled as `List Char` (wrapped in Lean `String` where
convenient), JSON values as an inductive `Json` type, numbers as `ℚ`, and
optional / possibly-absent JSON fields as `Option`.
-/

namespace RagSpec

/-! ### JavaScript string primitives used by the code -/

/-- JS `s.split(sep)` on a single-character separator: splitting the empty
string yields `[""]`, and separators at the ends yield empty segments, exactly
as in JavaScript. -/
def splitOn (sep : Char) : List Char → List (List Char)
  | [] => [[]]
  | c :: rest =>
    match splitOn sep rest with
    | [] => [[]]
    | seg :: segs => if c = sep then [] :: seg :: segs else (c :: seg) :: segs

/-- JS `s.trim()`: drop whitespace from both ends. -/
def jsTrim (s : List Char) : List Char :=
  ((s.dropWhile Char.isWhitespace).reverse.dropWhile Char.isWhitespace).reverse

/-- The suffix of a string strictly after its last `'/'`; the whole string when
it contains no `'/'`. Used to state what `url.split('/').pop()` computes. -/
def afterLastSlash : List Char → List Char
  | [] => []
  | c :: rest => if c = '/' ∨ '/' ∈ rest then afterLastSlash rest else c :: rest

/-! ### JSON values -/

/-- JSON-like values produced by the route handler. Numbers are rationals. -/
inductive Json where
  | str (s : String)
  | num (q : ℚ)
  | arr (xs : List Json)
  | obj (fields : List (String × Json))

/-- First-match lookup of a key in a JSON object field list. -/
def lookupField : List (String × Json) → String → Option Json
  | [], _ => none
  | (k, v) :: rest, key => if k = key then some v else lookupField rest key

/-- Field access `j[key]` on a JSON object; `none` on non-objects. -/
def getField (j : Json) (key : String) : Option Json :=
  match j with
  | .obj fields => lookupField fields key
  | _ => none

/-! ### The backend response as consumed by `route.ts` -/

/-- The `llm_evaluation` sub-object of a backend response: its `scores` field
may be absent. The scores object is a field-name/number association list,
since the route forwards whatever fields the backend supplies. -/
structure LlmEvaluationField where
  scores : Option (List (String × ℚ))

/-- The `evaluation` sub-object of a backend response: `llm_evaluation` may be
absent. -/
structure EvaluationField where
  llm_evaluation : Option LlmEvaluationField

/-- The parsed JSON body of a successful backend `/generate` response, as the
fields the route reads: `answer`, `references` (a list of URL strings), and the
optional `evaluation.llm_evaluation.scores` chain. -/
structure BackendData where
  answer : String
  references : List String
  evaluation : Option EvaluationField

/-- The optional chain `data.evaluation?.llm_evaluation?.scores`. -/
def chainScores (d : BackendData) : Option (List (String × ℚ)) :=
  d.evaluation.bind (fun e => e.llm_evaluation.bind (fun l => l.scores))

/-- The default scores object the route substitutes when the optional chain is
nullish: four fields, each 0 (source lines 37–42). -/
def defaultScores : List (String × ℚ) :=
  [("factual_accuracy", 0), ("relevance", 0), ("completeness", 0), ("context_usage", 0)]

/-- Render a scores association list as a JSON object. -/
def scoresJson (scores : List (String × ℚ)) : Json :=
  Json.obj (scores.map (fun p => (p.1, Json.num p.2)))

/-- `url.split('/').pop() || url` from the route's reference mapping: the last
segment of the URL split on `'/'`, or the whole URL when that segment is the
empty string (JS `||` treats `""` as falsy). -/
def pageTitleChars (url : List Char) : List Char :=
  let t := (splitOn '/' url).getLastD []
  if t = [] then url else t

/-- String-level wrapper of `pageTitleChars`. -/
def pageTitle (url : String) : String :=
  ⟨pageTitleChars url.data⟩

/-- The route's transformation of one backend reference URL:
`{ page_url: url, page_title: url.split('/').pop() || url }`. -/
def referenceJson (url : String) : Json :=
  Json.obj [("page_url", Json.str url), ("page_title", Json.str (pageTitle url))]

/-- The JSON body the route returns on success (source lines 30–43):
`answer` copied, `references` mapped through `referenceJson`, and `scores`
from the optional chain with `defaultScores` substituted when it is nullish. -/
def successBody (d : BackendData) : Json :=
  Json.obj
    [ ("answer", Json.str d.answer)
    , ("references", Json.arr (d.references.map referenceJson))
    , ("scores", scoresJson ((chainScores d).getD defaultScores)) ]

/-- The JSON body the route returns from its catch block (source lines 44–50). -/
def errorBody : Json :=
  Json.obj [("error", Json.str "Failed to process request")]

/-- Outcome of the `fetch` to the backend: the fetch itself throws, the
response has a non-ok status (the route reads its text and throws), or the
response is ok with a parsed JSON body. -/
inductive FetchOutcome where
  | throws
  | notOk (errorText : String)
  | ok (d : BackendData)

/-- An HTTP response produced by the route: a JSON body and a status code. -/
structure RouteResponse where
  body : Json
  status : Nat

/-- The route's `POST` handler. `parsed` is the result of
`await request.json()` destructured to `question` (`none` when the body is not
valid JSON, which throws into the catch block). Every throw lands in the catch
block, which returns `errorBody` with status 500; the success path returns
`successBody` with status 200. -/
def POST (parsed : Option String) (fetch : FetchOutcome) : RouteResponse :=
  match parsed with
  | none => ⟨errorBody, 500⟩
  | some _question =>
    match fetch with
    | .throws => ⟨errorBody, 500⟩
    | .notOk _errorText => ⟨errorBody, 500⟩
    | .ok d => ⟨successBody d, 200⟩

/-! ### The chat page component -/

/-- Whether a chat message was sent by the user or by the agent. -/
inductive MsgType where
  | user
  | agent
deriving DecidableEq

/-- The page's `Reference` shape: `{ page_url, page_title }`. -/
structure Reference where
  page_url : String
  page_title : String
deriving DecidableEq

/-- The page's `Message` shape. `references` and `scores` are optional; the
error-path message sets neither. The scores record is kept as a
field-name/number association list since the page iterates it with
`Object.entries`. -/
structure Message where
  id : String
  type : MsgType
  text : String
  references : Option (List Reference)
  scores : Option (List (String × ℚ))
deriving DecidableEq

/-- The JSON body the page reads from `/api/chat` on a 2xx response: it uses
`data.answer`, `data.references` and `data.scores`, each of which may be
absent in general. -/
structure ChatData where
  answer : String
  references : Option (List Reference)
  scores : Option (List (String × ℚ))

/-- Outcome of the page's `fetch('/api/chat', ...)`: the fetch throws, the
response status is not ok (the page then throws), or it is ok with a parsed
body. -/
inductive ApiOutcome where
  | throws
  | notOk
  | ok (data : ChatData)

/-- The fixed apology text appended by the page's catch block. -/
def apologyText : String :=
  "I apologize, but I encountered an error while processing your request. Please try asking your question again."

/-- The user message `handleSubmit` appends before calling the API. -/
def userMessage (question : String) (userId : String) : Message :=
  { id := userId, type := .user, text := question, references := none, scores := none }

/-- The agent message appended by the catch block: the fixed apology text and
no `references` or `scores` fields. -/
def errMessage (agentId : String) : Message :=
  { id := agentId, type := .agent, text := apologyText, references := none, scores := none }

/-- `question.toLowerCase().split(' ').slice(0, 3).join(' ')` from the success
path. -/
def questionTopic (q : List Char) : List Char :=
  List.intercalate [' '] ((splitOn ' ' (q.map Char.toLower)).take 3)

/-- The agent message appended on a successful API call: prefixed text plus
the response's `references` and `scores` carried over. -/
def agentMessage (question : String) (d : ChatData) (agentId : String) : Message :=
  { id := agentId
  , type := .agent
  , text := String.mk (questionTopic question.data) ++ ". Here\x27s what I found:\n\n" ++ d.answer
  , references := d.references
  , scores := d.scores }

/-- The page's `handleSubmit`, as the transformation it performs on the
message list: if the trimmed question is empty it returns immediately (no
request, no messages appended); otherwise it appends the user message and then
either the success agent message or the catch-block apology message. -/
def handleSubmit (question : String) (msgs : List Message) (outcome : ApiOutcome)
    (userId agentId : String) : List Message :=
  if jsTrim question.data = [] then msgs
  else
    let base := msgs ++ [userMessage question userId]
    match outcome with
    | .ok d => base ++ [agentMessage question d agentId]
    | .throws => base ++ [errMessage agentId]
    | .notOk => base ++ [errMessage agentId]

/-- The page's `getConfidenceColor`: green above 8, red below 5, yellow
otherwise, returned as the CSS class strings from the source. -/
def getConfidenceColor (score : ℚ) : String :=
  if score > 8 then "bg-green-100 text-green-800"
  else if score < 5 then "bg-red-100 text-red-800"
  else "bg-yellow-100 text-yellow-800"

/-- The JSX condition guarding the evaluation-scores section:
`message.type === 'agent' && message.scores` (a present object is truthy). -/
def rendersScoresSection (m : Message) : Bool :=
  (m.type = MsgType.agent : Bool) && m.scores.isSome

/-- The JSX condition guarding the references section:
`message.type === 'agent' && message.references && message.references.length > 0`. -/
def rendersReferencesSection (m : Message) : Bool :=
  (m.type = MsgType.agent : Bool) &&
    (match m.references with
     | some rs => (0 < rs.length : Bool)
     | none => false)

/-! ### Structural lemmas -/

/-- `splitOn` never returns an empty list of segments. -/
theorem splitOn_ne_nil (sep : Char) (s : List Char) : splitOn sep s ≠ [] := by
  cases s with
  | nil => simp [splitOn]
  | cons c rest =>
    unfold splitOn
    cases h : splitOn sep rest with
    | nil => simp
    | cons seg segs => by_cases hc : c = sep <;> simp [hc]

/-- A string without the separator splits into the single segment itself. -/
theorem splitOn_of_not_mem (sep : Char) (s : List Char) (h : sep ∉ s) :
    splitOn sep s = [s] := by
  induction s with
  | nil => rfl
  | cons c rest ih =>
    have hc : c ≠ sep := fun e => h (by simp [e])
    have hr : sep ∉ rest := fun m => h (List.mem_cons_of_mem _ m)
    unfold splitOn
    rw [ih hr]
    simp [hc]

/-- A string containing the separator splits into at least two segments. -/
theorem two_le_length_splitOn (sep : Char) (s : List Char) (h : sep ∈ s) :
    2 ≤ (splitOn sep s).length := by
  induction s with
  | nil => cases h
  | cons c rest ih =>
    unfold splitOn
    cases hr : splitOn sep rest with
    | nil => exact absurd hr (splitOn_ne_nil sep rest)
    | cons seg segs =>
      by_cases hc : c = sep
      · simp [hc]
      · have hm : sep ∈ rest := by
          rcases List.mem_cons.mp h with h1 | h2
          · exact absurd h1.symm hc
          · exact h2
        have h2 := ih hm
        rw [hr] at h2
        simp only [List.length_cons] at h2
        simp [hc]
        omega

/-- The fallback argument of `getLastD` is irrelevant on a nonempty list. -/
theorem getLastD_irrel {α : Type} (l : List α) (a b : α) (h : l ≠ []) :
    l.getLastD a = l.getLastD b := by
  cases l with
  | nil => exact absurd rfl h
  | cons x xs => rw [List.getLastD_cons, List.getLastD_cons]

/-- The last segment of a string split on `'/'` is exactly the suffix after
the last `'/'` (the whole string when there is no `'/'`). -/
theorem getLastD_splitOn_slash (s : List Char) :
    (splitOn '/' s).getLastD [] = afterLastSlash s := by
  induction s with
  | nil => rfl
  | cons c rest ih =>
    obtain ⟨seg, segs, hr⟩ : ∃ seg segs, splitOn '/' rest = seg :: segs := by
      cases h : splitOn '/' rest with
      | nil => exact absurd h (splitOn_ne_nil _ _)
      | cons a l => exact ⟨a, l, rfl⟩
    have hred : splitOn '/' (c :: rest) =
        if c = '/' then [] :: seg :: segs else (c :: seg) :: segs := by
      unfold splitOn
      rw [hr]
    rw [hr] at ih
    rw [hred]
    unfold afterLastSlash
    by_cases hc : c = '/'
    · rw [if_pos hc, if_pos (Or.inl hc), List.getLastD_cons]
      exact ih
    · by_cases hm : '/' ∈ rest
      · rw [if_neg hc, if_pos (Or.inr hm)]
        have h2 : 2 ≤ (seg :: segs).length := by
          rw [← hr]; exact two_le_length_splitOn _ _ hm
        have hsegs : segs ≠ [] := by
          cases segs with
          | nil => simp at h2
          | cons y ys => simp
        rw [List.getLastD_cons]
        rw [List.getLastD_cons] at ih
        rw [getLastD_irrel segs (c :: seg) seg hsegs]
        exact ih
      · rw [if_neg hc, if_neg (by tauto)]
        have hone : splitOn '/' rest = [rest] := splitOn_of_not_mem _ _ hm
        rw [hr] at hone
        injection hone with e1 e2
        subst e1; subst e2
        rfl

/-- `pageTitleChars` computes the suffix after the last `'/'`, defaulting to
the whole URL when that suffix is empty. -/
theorem pageTitleChars_eq (url : List Char) :
    pageTitleChars url = if afterLastSlash url = [] then url else afterLastSlash url := by
  unfold pageTitleChars
  rw [getLastD_splitOn_slash]

/-- Trimming a string of whitespace characters yields the empty string. -/
theorem jsTrim_eq_nil (s : List Char) (h : ∀ c ∈ s, c.isWhitespace) :
    jsTrim s = [] := by
  unfold jsTrim
  rw [List.dropWhile_eq_nil_iff.mpr h]
  rfl

/-! ### Field-access lemmas for the route's success body -/

/-- The success body's `answer` field is the backend's answer. -/
theorem getField_successBody_answer (d : BackendData) :
    getField (successBody d) "answer" = some (Json.str d.answer) := rfl

/-- The success body's `references` field is the mapped reference list. -/
theorem getField_successBody_references (d : BackendData) :
    getField (successBody d) "references"
      = some (Json.arr (d.references.map referenceJson)) := rfl

/-- The success body's `scores` field is the optional chain with the default
substituted. -/
theorem getField_successBody_scores (d : BackendData) :
    getField (successBody d) "scores"
      = some (scoresJson ((chainScores d).getD defaultScores)) := rfl

/-- The success body has no `evaluation` field. -/
theorem getField_successBody_evaluation (d : BackendData) :
    getField (successBody d) "evaluation" = none := rfl

/-- Extract the `page_url` string of a JSON reference object. -/
def refPageUrl (j : Json) : Option String :=
  match getField j "page_url" with
  | some (Json.str u) => some u
  | _ => none

/-- `refPageUrl` inverts the route's reference transformation. -/
theorem refPageUrl_referenceJson (u : String) :
    refPageUrl (referenceJson u) = some u := rfl

/-- The `page_url` fields of the route's mapped reference list are exactly the
backend's reference URLs, in order and with multiplicity. -/
theorem filterMap_refPageUrl (l : List String) :
    (l.map referenceJson).filterMap refPageUrl = l := by
  induction l with
  | nil => rfl
  | cons u us ih => simp [List.filterMap_cons, refPageUrl_referenceJson, ih]

/-! ### Concrete backend responses used as test inputs -/

/-- A backend response with no `evaluation` field. -/
def dNoEval : BackendData :=
  { answer := "a", references := [], evaluation := none }

/-- A backend response with a single reference URL. -/
def dRef : BackendData :=
  { answer := "ans", references := ["docs/x"], evaluation := none }

/-- A backend response whose references list repeats one URL. -/
def dDup : BackendData :=
  { answer := "a", references := ["u", "u"], evaluation := none }

/-- A backend response whose judge scores contain an out-of-range value. -/
def dBig : BackendData :=
  { answer := "a", references := []
  , evaluation := some { llm_evaluation := some { scores := some [("relevance", 15)] } } }

/-! ### Claims about the route handler -/

/-- Claim C1, as stated, is false: when the backend's evaluation scores are
missing, the route's default scores object has only four fields — it does not
contain a `semantic_similarity` field at all, so not all five score fields are
present. Witnessed on a backend response with no `evaluation` field. -/
theorem C1_counterexample :
    chainScores dNoEval = none ∧
    getField ((POST (some "q") (FetchOutcome.ok dNoEval)).body) "scores"
      = some (scoresJson defaultScores) ∧
    getField (scoresJson defaultScores) "semantic_similarity" = none := by
  refine ⟨rfl, rfl, rfl⟩

/-- Claim C1 (amended): for every backend response in which the evaluation
scores are missing, the route's response contains a scores object with the
four LLM score fields (`factual_accuracy`, `relevance`, `completeness`,
`context_usage`) present and set to the default 0; the fifth spec field,
`semantic_similarity`, is absent from the default object. -/
theorem C1_default_scores (q : String) (d : BackendData)
    (h : chainScores d = none) :
    getField ((POST (some q) (FetchOutcome.ok d)).body) "scores"
      = some (scoresJson defaultScores) ∧
    getField (scoresJson defaultScores) "factual_accuracy" = some (Json.num 0) ∧
    getField (scoresJson defaultScores) "relevance" = some (Json.num 0) ∧
    getField (scoresJson defaultScores) "completeness" = some (Json.num 0) ∧
    getField (scoresJson defaultScores) "context_usage" = some (Json.num 0) ∧
    getField (scoresJson defaultScores) "semantic_similarity" = none := by
  refine ⟨?_, rfl, rfl, rfl, rfl, rfl⟩
  show getField (successBody d) "scores" = _
  rw [getField_successBody_scores, h]
  rfl

/-- Claim C1 witness: the amended statement evaluated on a concrete backend
response with no `evaluation` field. -/
theorem C1_witness :
    getField ((POST (some "q") (FetchOutcome.ok dNoEval)).body) "scores"
      = some (scoresJson defaultScores) ∧
    getField (scoresJson defaultScores) "factual_accuracy" = some (Json.num 0) ∧
    getField (scoresJson defaultScores) "relevance" = some (Json.num 0) ∧
    getField (scoresJson defaultScores) "completeness" = some (Json.num 0) ∧
    getField (scoresJson defaultScores) "context_usage" = some (Json.num 0) ∧
    getField (scoresJson defaultScores) "semantic_similarity" = none :=
  C1_default_scores "q" dNoEval rfl

/-- Claim C2, as stated, is false: the successful response nests nothing under
an `evaluation` key (there is none; the scores object is the top-level
`scores` field), and the `references` entries are `{page_url, page_title}`
objects, not bare URL strings. -/
theorem C2_counterexample :
    getField ((POST (some "q") (FetchOutcome.ok dRef)).body) "evaluation" = none ∧
    getField ((POST (some "q") (FetchOutcome.ok dRef)).body) "references"
      = some (Json.arr
          [Json.obj [("page_url", Json.str "docs/x"), ("page_title", Json.str "x")]]) := by
  refine ⟨rfl, rfl⟩

/-- Claim C2 (amended): for every request with a valid `{question}` body that
the backend answers successfully, the route returns status 200 with a body of
shape `{answer, references: [{page_url, page_title}...], scores: {...}}` — the
scores object is top-level, not nested under an `evaluation` key, and the
references are objects; on every hard failure (invalid body, fetch throw, or
backend non-ok status) it returns the fixed error payload with non-2xx
status 500. -/
theorem C2_response_shape (q t : String) (d : BackendData) (f : FetchOutcome) :
    (POST (some q) (FetchOutcome.ok d)).status = 200 ∧
    getField ((POST (some q) (FetchOutcome.ok d)).body) "answer"
      = some (Json.str d.answer) ∧
    getField ((POST (some q) (FetchOutcome.ok d)).body) "references"
      = some (Json.arr (d.references.map referenceJson)) ∧
    getField ((POST (some q) (FetchOutcome.ok d)).body) "scores"
      = some (scoresJson ((chainScores d).getD defaultScores)) ∧
    getField ((POST (some q) (FetchOutcome.ok d)).body) "evaluation" = none ∧
    POST (some q) FetchOutcome.throws = ⟨errorBody, 500⟩ ∧
    POST (some q) (FetchOutcome.notOk t) = ⟨errorBody, 500⟩ ∧
    POST none f = ⟨errorBody, 500⟩ ∧
    ¬(200 ≤ (POST (some q) FetchOutcome.throws).status ∧
        (POST (some q) FetchOutcome.throws).status < 300) := by
  refine ⟨rfl, rfl, rfl, rfl, rfl, rfl, rfl, rfl, ?_⟩
  rw [show POST (some q) FetchOutcome.throws = ⟨errorBody, 500⟩ from rfl]
  decide

/-- Claim C3, as stated, is false: on a hard failure the route's body is the
bare `{error: "Failed to process request"}` object — it carries no apology
message (its only text differs from the page's fixed apology string) and no
references field at all (not an empty references list). -/
theorem C3_counterexample :
    (POST (some "q") FetchOutcome.throws).body = errorBody ∧
    getField ((POST (some "q") FetchOutcome.throws).body) "references" = none ∧
    getField ((POST (some "q") FetchOutcome.throws).body) "answer" = none ∧
    getField ((POST (some "q") FetchOutcome.throws).body) "error"
      = some (Json.str "Failed to process request") ∧
    "Failed to process request" ≠ apologyText := by
  refine ⟨rfl, rfl, rfl, rfl, by decide⟩

/-- Claim C3 (amended): on every stage failure (request body not valid JSON,
fetch throw, or backend non-ok status) the route returns one fixed,
well-formed payload: `{error: "Failed to process request"}` with non-2xx
status 500 — a machine-readable error indicator; the payload contains no
answer, references, or scores fields (rather than an apology message with an
empty references list). -/
theorem C3_failure_payload (parsed : Option String) (fetch : FetchOutcome)
    (h : parsed = none ∨ fetch = FetchOutcome.throws ∨ ∃ t, fetch = FetchOutcome.notOk t) :
    POST parsed fetch = ⟨errorBody, 500⟩ ∧
    getField errorBody "error" = some (Json.str "Failed to process request") ∧
    getField errorBody "answer" = none ∧
    getField errorBody "references" = none ∧
    getField errorBody "scores" = none ∧
    ¬(200 ≤ (POST parsed fetch).status ∧ (POST parsed fetch).status < 300) := by
  have hmain : POST parsed fetch = ⟨errorBody, 500⟩ := by
    rcases h with h | h | ⟨t, h⟩
    · rw [h]
      cases fetch <;> rfl
    · cases parsed with
      | none => rfl
      | some q => rw [h]; rfl
    · cases parsed with
      | none => rfl
      | some q => rw [h]; rfl
  refine ⟨hmain, rfl, rfl, rfl, rfl, ?_⟩
  rw [hmain]
  decide

/-- Claim C3 witness: the amended statement evaluated on a throwing fetch. -/
theorem C3_witness :
    POST (some "q") FetchOutcome.throws = ⟨errorBody, 500⟩ ∧
    getField errorBody "error" = some (Json.str "Failed to process request") ∧
    getField errorBody "answer" = none ∧
    getField errorBody "references" = none ∧
    getField errorBody "scores" = none ∧
    ¬(200 ≤ (POST (some "q") FetchOutcome.throws).status ∧
        (POST (some "q") FetchOutcome.throws).status < 300) :=
  C3_failure_payload (some "q") FetchOutcome.throws (Or.inr (Or.inl rfl))

/-- Claim C4 (confirmed): every `page_url` in the route's references output is
one of the backend's reference URLs — the route never fabricates a reference
URL absent from its input. -/
theorem C4_references_subset (q : String) (d : BackendData) (rs : List Json) (j : Json)
    (hrs : getField ((POST (some q) (FetchOutcome.ok d)).body) "references"
      = some (Json.arr rs))
    (hj : j ∈ rs) :
    ∃ u, u ∈ d.references ∧ getField j "page_url" = some (Json.str u) := by
  have heq : rs = d.references.map referenceJson := by
    have h2 : getField ((POST (some q) (FetchOutcome.ok d)).body) "references"
        = some (Json.arr (d.references.map referenceJson)) := rfl
    rw [hrs] at h2
    simpa using h2
  subst heq
  obtain ⟨u, hu, rfl⟩ := List.mem_map.mp hj
  exact ⟨u, hu, rfl⟩

/-- Claim C4 witness: the theorem evaluated on a concrete backend response
with one reference URL. -/
theorem C4_witness :
    ∃ u, u ∈ dRef.references ∧
      getField (referenceJson "docs/x") "page_url" = some (Json.str u) :=
  C4_references_subset "q" dRef (dRef.references.map referenceJson)
    (referenceJson "docs/x") rfl (by simp [dRef])

/-- Claim C5, as stated, is false: the route forwards backend score values
unchanged, without clamping. A backend judge score of 15 is delivered to the
client as 15, outside the 0–10 scale. -/
theorem C5_counterexample :
    getField ((POST (some "q") (FetchOutcome.ok dBig)).body) "scores"
      = some (scoresJson [("relevance", 15)]) ∧
    getField (scoresJson [("relevance", 15)]) "relevance" = some (Json.num 15) ∧
    ¬((15 : ℚ) ≤ 10) := by
  refine ⟨rfl, rfl, by norm_num⟩

/-- Claim C5 (amended): the route does not clamp scores — whenever the
backend's optional score chain is present, its values are delivered to the
client verbatim, out-of-range values included; only the substituted default
object's values (all 0) are guaranteed to lie within the 0–10 scale. -/
theorem C5_scores_not_clamped (q : String) (d : BackendData) (s : List (String × ℚ))
    (h : chainScores d = some s) :
    getField ((POST (some q) (FetchOutcome.ok d)).body) "scores"
      = some (scoresJson s) ∧
    ∀ p ∈ defaultScores, 0 ≤ p.2 ∧ p.2 ≤ 10 := by
  refine ⟨?_, by decide⟩
  show getField (successBody d) "scores" = _
  rw [getField_successBody_scores, h]
  rfl

/-- Claim C5 witness: the amended statement evaluated on a backend response
carrying an out-of-range judge score. -/
theorem C5_witness :
    getField ((POST (some "q") (FetchOutcome.ok dBig)).body) "scores"
      = some (scoresJson [("relevance", 15)]) ∧
    ∀ p ∈ defaultScores, 0 ≤ p.2 ∧ p.2 ≤ 10 :=
  C5_scores_not_clamped "q" dBig [("relevance", 15)] rfl

/-- Claim C6, as stated, is false: the route maps the backend's references
list element-by-element without removing duplicates, so a backend response
repeating one URL yields a delivered references list whose `page_url`s repeat
that URL. -/
theorem C6_counterexample :
    getField ((POST (some "q") (FetchOutcome.ok dDup)).body) "references"
      = some (Json.arr (dDup.references.map referenceJson)) ∧
    (dDup.references.map referenceJson).filterMap refPageUrl = ["u", "u"] ∧
    ¬(["u", "u"] : List String).Nodup := by
  refine ⟨rfl, rfl, by decide⟩

/-- Claim C6 (amended): the route's delivered references list is the backend's
references list mapped one-to-one, preserving order and multiplicity — the
`page_url`s of the output are exactly the input URLs in order; duplicates are
not removed. -/
theorem C6_references_order (q : String) (d : BackendData) :
    getField ((POST (some q) (FetchOutcome.ok d)).body) "references"
      = some (Json.arr (d.references.map referenceJson)) ∧
    (d.references.map referenceJson).filterMap refPageUrl = d.references :=
  ⟨rfl, filterMap_refPageUrl d.references⟩

/-- Claim C8 (confirmed): for every reference URL, the route's transformed
entry keeps `page_url` equal to the input URL unchanged, and its `page_title`
is the substring after the last `'/'` of the URL, except that when that
substring is empty (for example a URL ending in `'/'`) the title is the whole
URL. -/
theorem C8_page_title (url : String) :
    getField (referenceJson url) "page_url" = some (Json.str url) ∧
    getField (referenceJson url) "page_title"
      = some (Json.str
          ⟨if afterLastSlash url.data = [] then url.data else afterLastSlash url.data⟩) := by
  constructor
  · rfl
  · show some (Json.str (pageTitle url)) = _
    unfold pageTitle
    rw [pageTitleChars_eq]

/-! ### Claims about the chat page -/

/-- Claim C7 (confirmed): when the chat API call fails (fetch throw or non-ok
response) on a non-blank question, the page appends exactly the user message
and the catch-block agent message, whose text is the fixed apology string and
which has no references and no scores, so neither the evaluation-scores
section nor the references section renders for it. -/
theorem C7_error_message (q : String) (msgs : List Message) (outcome : ApiOutcome)
    (uid aid : String) (h1 : jsTrim q.data ≠ [])
    (h2 : outcome = ApiOutcome.throws ∨ outcome = ApiOutcome.notOk) :
    handleSubmit q msgs outcome uid aid = msgs ++ [userMessage q uid, errMessage aid] ∧
    (errMessage aid).text = apologyText ∧
    (errMessage aid).references = none ∧
    (errMessage aid).scores = none ∧
    rendersScoresSection (errMessage aid) = false ∧
    rendersReferencesSection (errMessage aid) = false := by
  refine ⟨?_, rfl, rfl, rfl, rfl, rfl⟩
  unfold handleSubmit
  rw [if_neg h1]
  rcases h2 with h | h <;> rw [h] <;> simp

/-- Claim C7 witness: the theorem evaluated on a concrete question and a
throwing fetch. -/
theorem C7_witness :
    handleSubmit "hi" [] ApiOutcome.throws "u1" "a1"
      = [] ++ [userMessage "hi" "u1", errMessage "a1"] ∧
    (errMessage "a1").text = apologyText ∧
    (errMessage "a1").references = none ∧
    (errMessage "a1").scores = none ∧
    rendersScoresSection (errMessage "a1") = false ∧
    rendersReferencesSection (errMessage "a1") = false :=
  C7_error_message "hi" [] ApiOutcome.throws "u1" "a1" (by decide) (Or.inl rfl)

/-- Claim C9 (confirmed): submitting a question that is empty or consists only
of whitespace leaves the message list unchanged, for every possible API
outcome — the handler returns before sending any request or appending any
message. -/
theorem C9_blank_question_noop (q : String) (msgs : List Message)
    (outcome : ApiOutcome) (uid aid : String)
    (h : ∀ c ∈ q.data, c.isWhitespace) :
    handleSubmit q msgs outcome uid aid = msgs := by
  unfold handleSubmit
  rw [if_pos (jsTrim_eq_nil q.data h)]

/-- Claim C9 witness: the theorem evaluated on a whitespace-only question. -/
theorem C9_witness : handleSubmit "  " [] ApiOutcome.throws "u1" "a1" = [] :=
  C9_blank_question_noop "  " [] ApiOutcome.throws "u1" "a1" (by decide)

/-- Claim C10 (confirmed): the confidence color is the green class exactly
when the score exceeds 8, the red class exactly when it is below 5, and the
yellow class exactly when it lies in `[5, 8]`; in particular the boundary
scores 5 and 8 are both classified yellow. -/
theorem C10_confidence_color (s : ℚ) :
    ((getConfidenceColor s = "bg-green-100 text-green-800") ↔ 8 < s) ∧
    ((getConfidenceColor s = "bg-red-100 text-red-800") ↔ s < 5) ∧
    ((getConfidenceColor s = "bg-yellow-100 text-yellow-800") ↔ (5 ≤ s ∧ s ≤ 8)) ∧
    getConfidenceColor 5 = "bg-yellow-100 text-yellow-800" ∧
    getConfidenceColor 8 = "bg-yellow-100 text-yellow-800" := by
  refine ⟨?_, ?_, ?_, by decide, by decide⟩ <;> unfold getConfidenceColor <;>
    by_cases h8 : s > 8
  · rw [if_pos h8]
    exact iff_of_true rfl h8
  · rw [if_neg h8]
    by_cases h5 : s < 5
    · rw [if_pos h5]
      exact iff_of_false (by decide) h8
    · rw [if_neg h5]
      exact iff_of_false (by decide) h8
  · rw [if_pos h8]
    exact iff_of_false (by decide) (fun hlt => absurd h8 (not_lt_of_lt (by linarith)))
  · rw [if_neg h8]
    by_cases h5 : s < 5
    · rw [if_pos h5]
      exact iff_of_true rfl h5
    · rw [if_neg h5]
      exact iff_of_false (by decide) h5
  · rw [if_pos h8]
    exact iff_of_false (by decide) (fun hy => absurd h8 (not_lt_of_le hy.2))
  · rw [if_neg h8]
    by_cases h5 : s < 5
    · rw [if_pos h5]
      exact iff_of_false (by decide) (fun hy => absurd h5 (not_lt_of_le hy.1))
    · rw [if_neg h5]
      exact iff_of_true rfl ⟨le_of_not_lt h5, le_of_not_lt h8⟩

end RagSpec
